import Mathlib

/-!
Shallow embedding of `src/homework.py` (a Telegram homework-status polling
bot) and proofs about its behaviour.

Conventions of the embedding:
* Python JSON values are the inductive `JSON`; dicts are association lists
  (first binding wins on lookup, as Python dicts cannot hold duplicate keys).
* Python exceptions become `Except PyError` results; the constructors record
  the Python exception class and its message.
* External effects (the HTTP exchange, Telegram delivery) are inputs to each
  poll cycle; log lines and sent messages are collected in the cycle output.
* Machine time (`time.time()`, `time.sleep`) is abstracted: the initial
  timestamp is a parameter and sleeping has no observable effect on state.
-/

namespace HomeworkBot

/-- A JSON value as Python's `json` module produces it: `None`, booleans,
numbers (only integers appear in this API's traffic), strings, lists and
dicts.  Dicts are modelled as ordered association lists. -/
inductive JSON where
  | null
  | bool (b : Bool)
  | num (n : Int)
  | str (s : String)
  | arr (elems : List JSON)
  | obj (fields : List (String × JSON))

/-- `d.get(k)` on a Python dict (`None` when the key is absent); on a
non-dict value the model returns `none` (the embedded functions guard the
non-dict case separately where Python would raise `AttributeError`). -/
def JSON.get? (j : JSON) (k : String) : Option JSON :=
  match j with
  | .obj fields => fields.lookup k
  | _ => none

mutual

/-- Python `repr` of a JSON value (string escaping inside `repr` is not
modelled; no string in this development needs it). -/
def JSON.pyRepr : JSON → String
  | .null => "None"
  | .bool true => "True"
  | .bool false => "False"
  | .num n => toString n
  | .str s => "\x27" ++ s ++ "\x27"
  | .arr elems => "[" ++ JSON.pyReprElems elems ++ "]"
  | .obj fields => "\x7b" ++ JSON.pyReprFields fields ++ "\x7d"

/-- Comma-separated `repr`s of list elements. -/
def JSON.pyReprElems : List JSON → String
  | [] => ""
  | [x] => JSON.pyRepr x
  | x :: xs => JSON.pyRepr x ++ ", " ++ JSON.pyReprElems xs

/-- Comma-separated `repr`s of dict entries. -/
def JSON.pyReprFields : List (String × JSON) → String
  | [] => ""
  | [(k, v)] => "\x27" ++ k ++ "\x27: " ++ JSON.pyRepr v
  | (k, v) :: fs =>
      "\x27" ++ k ++ "\x27: " ++ JSON.pyRepr v ++ ", " ++ JSON.pyReprFields fs

end

/-- Python `str` of a JSON value, as an f-string interpolates it. -/
def JSON.pyStr : JSON → String
  | .str s => s
  | j => j.pyRepr

/-- Python `str` of a `dict.get` result: `None` renders as `"None"`. -/
def pyStrOpt : Option JSON → String
  | none => "None"
  | some j => j.pyStr

/-- Python truthiness of a `dict.get` result: `None`, `False`, `0`, `""`,
`[]` and `{}` are falsy, everything else truthy. -/
def pyFalsy : Option JSON → Bool
  | none => true
  | some .null => true
  | some (.bool b) => !b
  | some (.num n) => n == 0
  | some (.str s) => s == ""
  | some (.arr elems) => elems.isEmpty
  | some (.obj fields) => fields.isEmpty

/-- Python type name, as `AttributeError` messages mention it. -/
def JSON.pyType : JSON → String
  | .null => "NoneType"
  | .bool _ => "bool"
  | .num _ => "int"
  | .str _ => "str"
  | .arr _ => "list"
  | .obj _ => "dict"

/-- A raised Python exception, tagged with its class.  `exc` is the bare
`Exception` class that `get_api_answer` raises. -/
inductive PyError where
  | exc (msg : String)
  | typeError (msg : String)
  | keyError (msg : String)
  | valueError (msg : String)
  | attributeError (msg : String)
  deriving DecidableEq, Repr

/-- Python `str` of an exception, as an f-string interpolates it.  A quirk
faithfully modelled: `str` of a `KeyError` is the `repr` of its argument,
so the message comes back wrapped in quotes. -/
def PyError.pyStr : PyError → String
  | .exc m => m
  | .typeError m => m
  | .keyError m => "\x27" ++ m ++ "\x27"
  | .valueError m => m
  | .attributeError m => m

/-- Log levels used by the program (`logging.basicConfig` at DEBUG). -/
inductive LogLevel where
  | debug
  | info
  | error
  | critical
  deriving DecidableEq, Repr

/-- One emitted log line: level and formatted message. -/
structure LogEvent where
  level : LogLevel
  text : String
  deriving DecidableEq, Repr

/-- `RETRY_PERIOD = 600`: the fixed sleep between cycles. -/
def RETRY_PERIOD : Nat := 600

/-- `ENDPOINT`. -/
def ENDPOINT : String := "https://practicum.yandex.ru/api/user_api/homework_statuses/"

/-- `HOMEWORK_VERDICTS`: the closed verdict dictionary. -/
def HOMEWORK_VERDICTS : List (String × String) :=
  [("approved", "Работа проверена: ревьюеру всё понравилось. Ура!"),
   ("reviewing", "Работа взята на проверку ревьюером."),
   ("rejected", "Работа проверена: у ревьюера есть замечания.")]

/-- The outcome of one attempted Telegram delivery, an input from the
external world: `.ok ()` if `bot.send_message` returns, `.error e` if it
raises an exception whose `str` is `e`. -/
abbrev Delivery := Except String Unit

/-- `send_message(bot, message)`: logs the attempt, calls the client, logs
success, and catches any client exception, logging it at ERROR level.  The
first component collects the log lines; the second is the function's own
outcome — the `try/except` swallows every delivery failure, so it is the
loop-visible result of the call. -/
def send_message (delivery : Delivery) (message : String) :
    List LogEvent × Except PyError Unit :=
  let attempt : LogEvent := ⟨.debug, "Отправка сообщения в Telegram: " ++ message⟩
  match delivery with
  | .ok () =>
      ([attempt, ⟨.debug, "Сообщение успешно отправлено в Telegram: " ++ message⟩],
       .ok ())
  | .error e =>
      ([attempt, ⟨.error, "Сбой при отправке сообщения в Telegram: " ++ e⟩],
       .ok ())

/-- A completed HTTP exchange: status code and the body as `requests`
decodes it (`.error ()` when `response.json()` raises a decode error). -/
structure HttpResponse where
  status_code : Nat
  body : Except Unit JSON

/-- What the network does for one `requests.get` call: either a
network-level failure (a `requests.RequestException`) or a response. -/
inductive Transport where
  | netFailure
  | response (r : HttpResponse)

/-- The DEBUG line `get_api_answer` emits before issuing the request:
`logging.debug('Отправка запроса к API: %s', ENDPOINT)`. -/
def apiRequestLog : LogEvent := ⟨.debug, "Отправка запроса к API: " ++ ENDPOINT⟩

/-- `get_api_answer(timestamp)`: first logs the request attempt at DEBUG
level — this line precedes `requests.get` inside the `try` and does not
raise, so it is emitted on every call, failing ones included.  The `try`
block covers `requests.get`, `raise_for_status()` and `response.json()`;
every `RequestException` (network failure, the `HTTPError` that
`raise_for_status` raises for status ≥ 400, and the JSON decode error,
which in `requests` is a `RequestException` subclass) is replaced by a
bare `Exception` with the fixed endpoint message.  A surviving non-200
status raises the HTTP-status `Exception`.  The first component collects
the log lines, the second is the call's outcome. -/
def get_api_answer (t : Transport) : List LogEvent × Except PyError JSON :=
  ([apiRequestLog],
   match t with
   | .netFailure => .error (.exc ("Ошибка при запросе к API: " ++ ENDPOINT ++ "."))
   | .response r =>
       if 400 ≤ r.status_code then
         .error (.exc ("Ошибка при запросе к API: " ++ ENDPOINT ++ "."))
       else
         match r.body with
         | .error () => .error (.exc ("Ошибка при запросе к API: " ++ ENDPOINT ++ "."))
         | .ok json =>
             if r.status_code ≠ 200 then
               .error (.exc ("Ошибка статуса HTTP: " ++ toString r.status_code))
             else
               .ok json)

/-- `check_response(response)`: shape validation.  The Python function
returns `None` on success, hence `Unit` here. -/
def check_response (response : JSON) : Except PyError Unit :=
  match response with
  | .obj fields =>
      match fields.lookup "homeworks" with
      | none => .error (.keyError "Отсутствует ключ \"homeworks\" в ответе API")
      | some homeworks =>
          match homeworks with
          | .arr _ =>
              if (fields.lookup "current_date").isSome then
                .ok ()
              else
                .error (.keyError "Отсутствует ключ \"current_date\" в ответе API")
          | _ => .error (.typeError "Данные по ключу \"homeworks\" не являются списком")
  | _ => .error (.typeError "Ответ от API должен быть словарем")

/-- `parse_status(homework)`: requires a truthy `homework_name` and a
`status` that is a key of `HOMEWORK_VERDICTS`; returns the formatted
sentence.  On a non-dict argument `homework.get` raises
`AttributeError`, modelled by the catch-all branch. -/
def parse_status (homework : JSON) : Except PyError String :=
  match homework with
  | .obj _ =>
      let homework_name := homework.get? "homework_name"
      if pyFalsy homework_name then
        .error (.valueError "Отсутствует ключ \"homework_name\" в ответе API")
      else
        let status := homework.get? "status"
        match status with
        | some (.str s) =>
            match HOMEWORK_VERDICTS.lookup s with
            | some verdict =>
                .ok ("Изменился статус проверки работы \"" ++ pyStrOpt homework_name
                      ++ "\". " ++ verdict)
            | none =>
                .error (.valueError ("Недокументированный статус работы: \""
                          ++ pyStrOpt status ++ "\""))
        | _ =>
            .error (.valueError ("Недокументированный статус работы: \""
                      ++ pyStrOpt status ++ "\""))
  | _ =>
      .error (.attributeError ("\x27" ++ homework.pyType
                ++ "\x27 object has no attribute \x27get\x27"))

/-- The loop's mutable state: `timestamp` (the `from_date` cursor, set once
from `int(time.time())` before the loop) and `last_status` (the last
notified status message, initially `None`). -/
structure PollState where
  timestamp : Int
  last_status : Option String
  deriving DecidableEq, Repr

/-- The state `main` builds before entering the loop. -/
def initialState (t0 : Int) : PollState :=
  { timestamp := t0, last_status := none }

/-- The external world of one cycle: what the network does for this
cycle's `requests.get`, and what Telegram does if a send is attempted
(each cycle calls `send_message` at most once). -/
structure CycleInput where
  transport : Transport
  delivery : Delivery

/-- Observable output of one cycle: the messages passed to `send_message`
(in order) and the log lines emitted. -/
structure CycleOutput where
  sent : List String
  logs : List LogEvent
  deriving DecidableEq, Repr

/-- The `finally` block's log line, emitted every cycle. -/
def finallyLog : LogEvent := ⟨.info, "Программа завершена"⟩

/-- The raising prefix of the outer `try` block: `get_api_answer` followed
by `check_response`; the first exception of either propagates to the outer
`except`.  On success the (unmodified) response is what the rest of the
body reads, since `check_response` returned `None`. -/
def fetchAndCheck (inp : CycleInput) : Except PyError JSON :=
  match (get_api_answer inp.transport).2 with
  | .error e => .error e
  | .ok response =>
      match check_response response with
      | .error e => .error e
      | .ok () => .ok response

/-- One iteration of `main`'s `while True` body, from the top of the outer
`try` to the end of the `finally` block.  `check_response`'s `None` result
is bound to a variable and then overwritten, so it contributes nothing
here.  `homeworks[0]` is guarded by `if homeworks:`, whose truthiness on
the validated list means non-emptiness; the catch-all list branch is
unreachable after `check_response` succeeds.  Every branch's log output
starts with `get_api_answer`'s request trace (the loop body always calls
it first).  Note that `timestamp` is never reassigned anywhere in the
loop. -/
def cycle (s : PollState) (inp : CycleInput) : PollState × CycleOutput :=
  let apiLogs := (get_api_answer inp.transport).1
  match fetchAndCheck inp with
  | .error e =>
      let message := "Сбой в работе программы: " ++ e.pyStr
      let (sendLogs, _) := send_message inp.delivery message
      (s, ⟨[message], apiLogs ++ sendLogs ++ [finallyLog]⟩)
  | .ok response =>
      match response.get? "homeworks" with
      | some (.arr (homework :: _)) =>
          match parse_status homework with
          | .ok status_message =>
              if s.last_status = some status_message then
                (s, ⟨[], apiLogs ++ [finallyLog]⟩)
              else
                let (sendLogs, _) := send_message inp.delivery status_message
                ({ s with last_status := some status_message },
                 ⟨[status_message],
                  apiLogs ++ sendLogs ++ [⟨.info, "Статус изменился"⟩, finallyLog]⟩)
          | .error parse_error =>
              (s, ⟨[],
                   apiLogs ++ [⟨.error, "Ошибка при обработке статуса домашней работы: "
                       ++ parse_error.pyStr⟩, finallyLog]⟩)
      | _ => (s, ⟨[], apiLogs ++ [finallyLog]⟩)

/-- Runs the loop body once per cycle input, threading the state and
collecting every cycle's output; the fixed `time.sleep(RETRY_PERIOD)`
between iterations has no observable effect on state. -/
def run (s : PollState) : List CycleInput → PollState × List CycleOutput
  | [] => (s, [])
  | inp :: rest =>
      let (s1, out) := cycle s inp
      let (s2, outs) := run s1 rest
      (s2, out :: outs)

/-- The status message this cycle derives, if the cycle reaches a
successful `parse_status` of the first homework record: the fetch and the
shape check succeed, the list is non-empty, and its head parses. -/
def derived (inp : CycleInput) : Option String :=
  match fetchAndCheck inp with
  | .error _ => none
  | .ok response =>
      match response.get? "homeworks" with
      | some (.arr (homework :: _)) => (parse_status homework).toOption
      | _ => none

/-- The cycle-level failure this cycle hits, if any: the exception the
outer `except` catches (from `get_api_answer` or `check_response`). -/
def cycleFailure (inp : CycleInput) : Option PyError :=
  match fetchAndCheck inp with
  | .error e => some e
  | .ok _ => none

/-! ### Concrete fixtures

Records and responses used by the end-to-end scenarios of the spec and by
the concrete witnesses below. -/

/-- The scenario-1 record: `{"homework_name": "hw1", "status": "approved"}`. -/
def hw1Record : JSON :=
  .obj [("homework_name", .str "hw1"), ("status", .str "approved")]

/-- A record with an undocumented status: `{"homework_name": "hw2", "status": "bogus"}`. -/
def bogusRecord : JSON :=
  .obj [("homework_name", .str "hw2"), ("status", .str "bogus")]

/-- The scenario-1 notification text. -/
def scenario1Text : String :=
  "Изменился статус проверки работы \"hw1\". Работа проверена: ревьюеру всё понравилось. Ура!"

/-- Scenario 1: `{"homeworks":[{"homework_name":"hw1","status":"approved"}],"current_date":1000}`. -/
def scenario1Response : JSON :=
  .obj [("homeworks", .arr [hw1Record]), ("current_date", .num 1000)]

/-- Scenario 2: `{"homeworks":[],"current_date":1000}`. -/
def scenario2Response : JSON :=
  .obj [("homeworks", .arr []), ("current_date", .num 1000)]

/-- A batch with one well-formed and one malformed record, in that order. -/
def mixedResponse : JSON :=
  .obj [("homeworks", .arr [hw1Record, bogusRecord]), ("current_date", .num 1000)]

/-- A batch whose first record is the malformed one. -/
def badFirstResponse : JSON :=
  .obj [("homeworks", .arr [bogusRecord, hw1Record]), ("current_date", .num 1000)]

/-- A cycle whose HTTP exchange succeeds (status 200, body `r`) and whose
Telegram delivery, if attempted, succeeds. -/
def okInput (r : JSON) : CycleInput := ⟨.response ⟨200, .ok r⟩, .ok ()⟩

/-- A cycle whose `requests.get` raises a network-level exception. -/
def netFailInput : CycleInput := ⟨.netFailure, .ok ()⟩

/-- A cycle with a good HTTP exchange but a Telegram client that raises on
delivery. -/
def failedDeliveryInput (r : JSON) : CycleInput :=
  ⟨.response ⟨200, .ok r⟩, .error "Timed out"⟩

/-! ### Characterisation lemmas for one loop iteration -/

/-- The loop never assigns `timestamp`: every branch of the body leaves it
untouched. -/
lemma cycle_timestamp (s : PollState) (inp : CycleInput) :
    (cycle s inp).1.timestamp = s.timestamp := by
  unfold cycle
  repeat' split
  all_goals rfl

/-- A cycle that derives status message `m` either suppresses it (when it
equals `last_status`) or notifies it and records it. -/
lemma cycle_of_derived (s : PollState) (inp : CycleInput) (m : String)
    (h : derived inp = some m) :
    cycle s inp =
      if s.last_status = some m then
        (s, ⟨[], (get_api_answer inp.transport).1 ++ [finallyLog]⟩)
      else ({ s with last_status := some m },
            ⟨[m], (get_api_answer inp.transport).1 ++ (send_message inp.delivery m).1
                    ++ [⟨.info, "Статус изменился"⟩, finallyLog]⟩) := by
  unfold derived at h
  unfold cycle
  split at h
  next e heq => exact Option.noConfusion h
  next response heq =>
    split at h
    next hw rest hhw =>
      cases hps : parse_status hw with
      | ok msg =>
          rw [hps] at h
          simp only [Except.toOption] at h
          obtain rfl : msg = m := by exact Option.some.inj h
          rfl
      | error e => rw [hps] at h; simp [Except.toOption] at h
    next hnot => simp at h

/-- After a cycle that derives `m`, `last_status` is `some m`, whether or
not the notification fired. -/
lemma last_status_after_derived (s : PollState) (inp : CycleInput) (m : String)
    (h : derived inp = some m) :
    (cycle s inp).1.last_status = some m := by
  rw [cycle_of_derived s inp m h]
  by_cases hc : s.last_status = some m
  · simp [hc]
  · simp [hc]

/-- A cycle whose fetch or shape check raises hands the exception to the
outer `except`: the diagnostic is passed to `send_message`, the state is
returned untouched, and the only log lines are the API client's request
trace, the notifier's own trace and the `finally` line. -/
lemma cycle_of_failure (s : PollState) (inp : CycleInput) (e : PyError)
    (h : cycleFailure inp = some e) :
    cycle s inp =
      (s, ⟨["Сбой в работе программы: " ++ e.pyStr],
           (get_api_answer inp.transport).1
             ++ (send_message inp.delivery ("Сбой в работе программы: " ++ e.pyStr)).1
             ++ [finallyLog]⟩) := by
  unfold cycleFailure at h
  unfold cycle
  split at h
  next e' heq =>
    obtain rfl : e' = e := by exact Option.some.inj h
    rfl
  next response heq => exact Option.noConfusion h

/-- A 200-status exchange whose body passes the shape check makes it
through `get_api_answer` and `check_response` unchanged. -/
lemma fetchAndCheck_ok (d : Delivery) (fields : List (String × JSON))
    (xs : List JSON) (hhw : fields.lookup "homeworks" = some (.arr xs))
    (hcd : (fields.lookup "current_date").isSome) :
    fetchAndCheck ⟨.response ⟨200, .ok (.obj fields)⟩, d⟩ = .ok (.obj fields) := by
  unfold fetchAndCheck get_api_answer check_response
  simp [hhw, hcd]

/-- Every cycle produces exactly one output, so the loop keeps going after
any cycle: the run of `n` inputs yields `n` outputs. -/
lemma run_length (s : PollState) (inputs : List CycleInput) :
    (run s inputs).2.length = inputs.length := by
  induction inputs generalizing s with
  | nil => rfl
  | cons inp rest ih => simp [run, ih]

/-- A cycle whose fetch and shape check succeed and whose response holds a
non-empty homework list is fully determined by the list's head: the rest
of the list is never consulted. -/
lemma cycle_success_head (s : PollState) (inp : CycleInput)
    (response hw : JSON) (rest : List JSON)
    (hok : fetchAndCheck inp = .ok response)
    (hhw : response.get? "homeworks" = some (.arr (hw :: rest))) :
    cycle s inp =
      match parse_status hw with
      | .ok m =>
          if s.last_status = some m then
            (s, ⟨[], (get_api_answer inp.transport).1 ++ [finallyLog]⟩)
          else ({ s with last_status := some m },
                ⟨[m], (get_api_answer inp.transport).1 ++ (send_message inp.delivery m).1
                        ++ [⟨.info, "Статус изменился"⟩, finallyLog]⟩)
      | .error e =>
          (s, ⟨[], (get_api_answer inp.transport).1
                     ++ [⟨.error, "Ошибка при обработке статуса домашней работы: "
                           ++ e.pyStr⟩, finallyLog]⟩) := by
  unfold cycle
  rw [hok]
  dsimp only
  rw [hhw]

/-! ### Claim theorems -/

/-- C5: for every record whose `homework_name` is a non-empty string and
whose `status` is a key of the closed verdict set, `parse_status` returns
exactly the sentence combining the name with the localized verdict text —
a non-empty string containing the name — and for the scenario-1 record it
returns exactly the scenario-1 notification text. -/
theorem parse_status_success (fields : List (String × JSON))
    (name status verdict : String)
    (hname : fields.lookup "homework_name" = some (.str name))
    (hnonempty : name ≠ "")
    (hstatus : fields.lookup "status" = some (.str status))
    (hverdict : HOMEWORK_VERDICTS.lookup status = some verdict) :
    parse_status (.obj fields) =
      .ok ("Изменился статус проверки работы \"" ++ name ++ "\". " ++ verdict) ∧
    ("Изменился статус проверки работы \"" ++ name ++ "\". " ++ verdict) ≠ "" ∧
    List.IsInfix name.data
      ("Изменился статус проверки работы \"" ++ name ++ "\". " ++ verdict).data ∧
    parse_status hw1Record = .ok scenario1Text := by
  refine ⟨?_, ?_, ?_, rfl⟩
  · unfold parse_status
    simp [JSON.get?, hname, hstatus, pyFalsy, hnonempty, hverdict, pyStrOpt,
      JSON.pyStr]
  · intro hcon
    have hlen := congrArg String.length hcon
    rw [String.length_append, String.length_append, String.length_append] at hlen
    have hpos : 0 < ("Изменился статус проверки работы \"" : String).length := by
      decide
    have hz : ("" : String).length = 0 := rfl
    omega
  · exact ⟨("Изменился статус проверки работы \"" : String).data,
      ("\". " ++ verdict : String).data, by simp [String.data_append]⟩

/-- Witness for C5 at the scenario-1 record. -/
theorem parse_status_success_witness :
    parse_status hw1Record =
      .ok ("Изменился статус проверки работы \"" ++ "hw1" ++ "\". "
            ++ "Работа проверена: ревьюеру всё понравилось. Ура!") :=
  (parse_status_success
    [("homework_name", .str "hw1"), ("status", .str "approved")]
    "hw1" "approved" "Работа проверена: ревьюеру всё понравилось. Ура!"
    rfl (by decide) rfl rfl).1

/-- C7 counterexample: `check_response` does not return the validated,
typed structure — the Python function returns `None` on success, so two
well-shaped responses with different homework lists produce the very same
return value, which therefore carries no `APIResponse` content. -/
theorem check_response_return_counterexample :
    check_response scenario1Response = .ok () ∧
    check_response scenario2Response = .ok () ∧
    check_response scenario1Response = check_response scenario2Response ∧
    scenario1Response ≠ scenario2Response := by
  refine ⟨rfl, rfl, rfl, ?_⟩
  simp [scenario1Response, scenario2Response, hw1Record]

/-- C7 (amended): `check_response` raises exactly the advertised shape
errors — non-mapping top level, missing `homeworks` key, non-list
`homeworks` value, missing `current_date` key, in that order of checks —
and on a well-shaped input raises nothing, returning `None` (no data);
the caller re-reads `homeworks` from the raw response. -/
theorem check_response_spec (j hw d : JSON) (fields : List (String × JSON))
    (xs : List JSON) :
    ((∀ fs : List (String × JSON), j ≠ .obj fs) →
      check_response j = .error (.typeError "Ответ от API должен быть словарем")) ∧
    (fields.lookup "homeworks" = none →
      check_response (.obj fields) =
        .error (.keyError "Отсутствует ключ \"homeworks\" в ответе API")) ∧
    (fields.lookup "homeworks" = some hw → (∀ ys : List JSON, hw ≠ .arr ys) →
      check_response (.obj fields) =
        .error (.typeError "Данные по ключу \"homeworks\" не являются списком")) ∧
    (fields.lookup "homeworks" = some (.arr xs) →
      fields.lookup "current_date" = none →
      check_response (.obj fields) =
        .error (.keyError "Отсутствует ключ \"current_date\" в ответе API")) ∧
    (fields.lookup "homeworks" = some (.arr xs) →
      fields.lookup "current_date" = some d →
      check_response (.obj fields) = .ok ()) := by
  refine ⟨?_, ?_, ?_, ?_, ?_⟩
  · intro hnotobj
    cases j with
    | obj fs => exact absurd rfl (hnotobj fs)
    | null => rfl
    | bool b => rfl
    | num n => rfl
    | str s => rfl
    | arr elems => rfl
  · intro h
    unfold check_response
    simp [h]
  · intro h hnotarr
    unfold check_response
    dsimp only
    rw [h]
    cases hw with
    | arr ys => exact absurd rfl (hnotarr ys)
    | null => rfl
    | bool b => rfl
    | num n => rfl
    | str s => rfl
    | obj fs => rfl
  · intro h hcd
    unfold check_response
    simp [h, hcd]
  · intro h hcd
    unfold check_response
    simp [h, hcd]

/-- Witness for C7's amended theorem: each of the five cases at a concrete
input. -/
theorem check_response_spec_witness :
    check_response (.str "no") =
      .error (.typeError "Ответ от API должен быть словарем") ∧
    check_response (.obj [("current_date", .num 5)]) =
      .error (.keyError "Отсутствует ключ \"homeworks\" в ответе API") ∧
    check_response (.obj [("homeworks", .num 7)]) =
      .error (.typeError "Данные по ключу \"homeworks\" не являются списком") ∧
    check_response (.obj [("homeworks", .arr [])]) =
      .error (.keyError "Отсутствует ключ \"current_date\" в ответе API") ∧
    check_response scenario2Response = .ok () := by
  refine ⟨?_, ?_, ?_, ?_, ?_⟩
  · exact (check_response_spec (.str "no") .null .null [] []).1
      (by intro fs h; exact JSON.noConfusion h)
  · exact (check_response_spec .null .null .null [("current_date", .num 5)] []).2.1
      rfl
  · exact (check_response_spec .null (.num 7) .null [("homeworks", .num 7)] []).2.2.1
      rfl (by intro ys h; exact JSON.noConfusion h)
  · exact (check_response_spec .null .null .null [("homeworks", .arr [])] []).2.2.2.1
      rfl rfl
  · exact (check_response_spec .null .null (.num 1000)
      [("homeworks", .arr []), ("current_date", .num 1000)] []).2.2.2.2 rfl rfl

/-- C8: `send_message` returns normally for every message and every
behaviour of the Telegram client — a raising client's failure is caught,
logged at ERROR level, and swallowed; it never propagates. -/
theorem send_message_never_raises (d : Delivery) (m e : String) :
    (send_message d m).2 = .ok () ∧
    (d = .error e →
      (⟨.error, "Сбой при отправке сообщения в Telegram: " ++ e⟩ : LogEvent)
        ∈ (send_message d m).1) := by
  cases d with
  | ok u =>
      cases u
      exact ⟨rfl, by intro h; exact Except.noConfusion h⟩
  | error x =>
      refine ⟨rfl, ?_⟩
      intro h
      obtain rfl : x = e := by
        injection h
      simp [send_message]

/-- Witness for C8 at a raising client. -/
theorem send_message_never_raises_witness :
    (send_message (.error "Chat not found") "hello").2 = .ok () ∧
    (⟨.error, "Сбой при отправке сообщения в Telegram: " ++ "Chat not found"⟩
        : LogEvent) ∈ (send_message (.error "Chat not found") "hello").1 :=
  ⟨(send_message_never_raises (.error "Chat not found") "hello" "Chat not found").1,
   (send_message_never_raises (.error "Chat not found") "hello" "Chat not found").2
     rfl⟩

/-- C1: over consecutive cycles the derived status message is notified at
most once per distinct consecutive value: a cycle deriving a message not
equal to `last_status` sends exactly it; a following cycle deriving the
same message sends nothing; a following cycle deriving a different
message sends exactly that one. -/
theorem status_notification_dedup (s : PollState) (i1 i2 : CycleInput)
    (m m' : String) (h1 : derived i1 = some m) (h2 : derived i2 = some m') :
    (s.last_status ≠ some m → (cycle s i1).2.sent = [m]) ∧
    (m' = m → (cycle (cycle s i1).1 i2).2.sent = []) ∧
    (m' ≠ m → (cycle (cycle s i1).1 i2).2.sent = [m']) := by
  have hafter := last_status_after_derived s i1 m h1
  refine ⟨?_, ?_, ?_⟩
  · intro hne
    rw [cycle_of_derived s i1 m h1, if_neg hne]
  · rintro rfl
    rw [cycle_of_derived _ i2 m' h2, if_pos hafter]
  · intro hne
    have hne' : (cycle s i1).1.last_status ≠ some m' := by
      rw [hafter]
      intro hcon
      exact hne (Option.some.inj hcon).symm
    rw [cycle_of_derived _ i2 m' h2, if_neg hne']

/-- Witness for C1: the same scenario-1 response in two consecutive
cycles notifies once, from the first cycle only. -/
theorem status_notification_dedup_witness :
    (cycle (initialState 0) (okInput scenario1Response)).2.sent
      = [scenario1Text] ∧
    (cycle (cycle (initialState 0) (okInput scenario1Response)).1
        (okInput scenario1Response)).2.sent = [] := by
  have h := status_notification_dedup (initialState 0)
    (okInput scenario1Response) (okInput scenario1Response)
    scenario1Text scenario1Text rfl rfl
  exact ⟨h.1 (by decide), h.2.1 rfl⟩

/-- C2 counterexample: the batch `[hw1Record, bogusRecord]` — one
well-formed and one malformed record — yields a cycle that parses only
the first record: the malformed second record is never looked at, so no
record-level error is logged at all, against the claimed "exactly one
logged record-level error". -/
theorem batch_processing_counterexample :
    mixedResponse =
      .obj [("homeworks", .arr [hw1Record, bogusRecord]),
            ("current_date", .num 1000)] ∧
    parse_status hw1Record = .ok scenario1Text ∧
    parse_status bogusRecord =
      .error (.valueError "Недокументированный статус работы: \"bogus\"") ∧
    (cycle (initialState 0) (okInput mixedResponse)).2.sent = [scenario1Text] ∧
    ((cycle (initialState 0) (okInput mixedResponse)).2.logs.filter
        (fun l => l.level == LogLevel.error)) = [] :=
  ⟨rfl, rfl, rfl, rfl, rfl⟩

/-- C2 (amended): in every cycle only the first record of the homeworks
list is examined — the cycle's outcome is unchanged by the records after
the head — and a parse failure of that first record is logged at ERROR
level for it alone (the cycle's log lines being the API client's request
trace, that ERROR line and the `finally` line), leaves the state
untouched, sends nothing, and does not abort the cycle. -/
theorem first_record_only (s : PollState) (d : Delivery)
    (fields1 fields2 : List (String × JSON)) (hw : JSON)
    (rest1 rest2 : List JSON) (e : PyError)
    (hhw1 : fields1.lookup "homeworks" = some (.arr (hw :: rest1)))
    (hcd1 : (fields1.lookup "current_date").isSome)
    (hhw2 : fields2.lookup "homeworks" = some (.arr (hw :: rest2)))
    (hcd2 : (fields2.lookup "current_date").isSome) :
    cycle s ⟨.response ⟨200, .ok (.obj fields1)⟩, d⟩ =
      cycle s ⟨.response ⟨200, .ok (.obj fields2)⟩, d⟩ ∧
    (parse_status hw = .error e →
      cycle s ⟨.response ⟨200, .ok (.obj fields1)⟩, d⟩ =
        (s, ⟨[], [apiRequestLog,
                  ⟨.error, "Ошибка при обработке статуса домашней работы: "
                     ++ e.pyStr⟩, finallyLog]⟩)) := by
  have hc1 := cycle_success_head s ⟨.response ⟨200, .ok (.obj fields1)⟩, d⟩
    (.obj fields1) hw rest1 (fetchAndCheck_ok d fields1 (hw :: rest1) hhw1 hcd1)
    hhw1
  have hc2 := cycle_success_head s ⟨.response ⟨200, .ok (.obj fields2)⟩, d⟩
    (.obj fields2) hw rest2 (fetchAndCheck_ok d fields2 (hw :: rest2) hhw2 hcd2)
    hhw2
  constructor
  · rw [hc1, hc2]
    rfl
  · intro hps
    rw [hc1, hps]
    rfl

/-- Witness for C2's amended theorem: a malformed first record followed by
a well-formed one behaves exactly like the malformed record alone — one
ERROR log, nothing sent, state kept. -/
theorem first_record_only_witness :
    cycle (initialState 0) ⟨.response ⟨200, .ok badFirstResponse⟩, .ok ()⟩ =
      cycle (initialState 0)
        ⟨.response ⟨200, .ok (.obj [("homeworks", .arr [bogusRecord]),
                                    ("current_date", .num 1000)])⟩, .ok ()⟩ ∧
    cycle (initialState 0) ⟨.response ⟨200, .ok badFirstResponse⟩, .ok ()⟩ =
      (initialState 0,
       ⟨[], [apiRequestLog,
             ⟨.error, "Ошибка при обработке статуса домашней работы: "
                ++ (PyError.valueError
                      "Недокументированный статус работы: \"bogus\"").pyStr⟩,
             finallyLog]⟩) := by
  have h := first_record_only (initialState 0) (.ok ())
    [("homeworks", .arr [bogusRecord, hw1Record]), ("current_date", .num 1000)]
    [("homeworks", .arr [bogusRecord]), ("current_date", .num 1000)]
    bogusRecord [hw1Record] []
    (.valueError "Недокументированный статус работы: \"bogus\"")
    rfl rfl rfl rfl
  exact ⟨h.1, h.2 rfl⟩

/-- C3 counterexample: the scenario-2 response (`homeworks` empty,
`current_date` 1000) sends nothing, but the cursor does not advance to
1000 — it keeps its initial value 0, because the loop never assigns
`timestamp`. -/
theorem cursor_advancement_counterexample :
    (cycle (initialState 0) (okInput scenario2Response)).2.sent = [] ∧
    (cycle (initialState 0) (okInput scenario2Response)).1.timestamp = 0 ∧
    (0 : Int) ≠ 1000 :=
  ⟨rfl, rfl, by decide⟩

/-- C3 (amended): the cursor is never updated — after every cycle,
successful or not, `timestamp` keeps its previous value; in particular a
successful cycle on the scenario-2 response sends no notification and
leaves the whole state unchanged instead of advancing the cursor. -/
theorem cursor_never_updated (s : PollState) (inp : CycleInput) :
    (cycle s inp).1.timestamp = s.timestamp ∧
    (cycle s (okInput scenario2Response)).2.sent = [] ∧
    (cycle s (okInput scenario2Response)).1 = s :=
  ⟨cycle_timestamp s inp, rfl, rfl⟩

/-- C4 counterexample: a failing cycle (network failure; the delivery of
the diagnostic succeeds) notifies the diagnostic, but the loop logs
nothing about the failure: no ERROR- or CRITICAL-level log line is
emitted during the whole cycle, against the claimed "logs it". -/
theorem cycle_failure_log_counterexample :
    cycleFailure netFailInput =
      some (.exc ("Ошибка при запросе к API: " ++ ENDPOINT ++ ".")) ∧
    (cycle (initialState 0) netFailInput).2.sent =
      ["Сбой в работе программы: Ошибка при запросе к API: "
         ++ ENDPOINT ++ "."] ∧
    ((cycle (initialState 0) netFailInput).2.logs.filter
        (fun l => l.level == LogLevel.error
                    || l.level == LogLevel.critical)) = [] := by
  refine ⟨rfl, ?_, rfl⟩
  decide

/-- C4 (amended): on a transport, HTTP-status, decode or shape error the
cycle composes the diagnostic message, passes it to the best-effort
notifier, leaves the poll state (cursor and `last_status`) untouched, and
does not log the failure — the cycle's log lines are exactly the API
client's request trace, the notifier's trace for the diagnostic, and the
`finally` line, so none is about the failure itself — and the loop goes
on to process every remaining cycle after the fixed interval. -/
theorem cycle_failure_handling (s : PollState) (inp : CycleInput)
    (e : PyError) (rest : List CycleInput)
    (h : cycleFailure inp = some e) :
    (cycle s inp).1 = s ∧
    (cycle s inp).2.sent = ["Сбой в работе программы: " ++ e.pyStr] ∧
    (cycle s inp).2.logs =
      (get_api_answer inp.transport).1
        ++ (send_message inp.delivery ("Сбой в работе программы: " ++ e.pyStr)).1
        ++ [finallyLog] ∧
    (run s (inp :: rest)).2.length = rest.length + 1 := by
  have hc := cycle_of_failure s inp e h
  refine ⟨by rw [hc], by rw [hc], by rw [hc], ?_⟩
  rw [run_length]
  rfl

/-- Witness for C4's amended theorem at a concrete network failure. -/
theorem cycle_failure_handling_witness :
    (cycle (initialState 0) netFailInput).1 = initialState 0 ∧
    (cycle (initialState 0) netFailInput).2.sent =
      ["Сбой в работе программы: "
         ++ (PyError.exc ("Ошибка при запросе к API: " ++ ENDPOINT ++ ".")).pyStr] ∧
    (run (initialState 0) [netFailInput, netFailInput]).2.length = 1 + 1 := by
  have h := cycle_failure_handling (initialState 0) netFailInput
    (.exc ("Ошибка при запросе к API: " ++ ENDPOINT ++ ".")) [netFailInput] rfl
  exact ⟨h.1, h.2.1, h.2.2.2⟩

/-- C9: cycle-failure notifications bypass deduplication: whatever
`last_status` holds, a failing cycle passes its diagnostic to
`send_message` unconditionally and records nothing, so repeating the
identical failing cycle sends the identical diagnostic once more. -/
theorem failure_bypasses_dedup (s : PollState) (inp : CycleInput)
    (e : PyError) (h : cycleFailure inp = some e) :
    (cycle s inp).2.sent = ["Сбой в работе программы: " ++ e.pyStr] ∧
    (cycle s inp).1 = s ∧
    (cycle (cycle s inp).1 inp).2.sent =
      ["Сбой в работе программы: " ++ e.pyStr] := by
  have h1 := cycle_of_failure s inp e h
  have hstate : (cycle s inp).1 = s := by rw [h1]
  exact ⟨by rw [h1], hstate, by rw [hstate, h1]⟩

/-- Witness for C9: two consecutive identical network failures send the
identical diagnostic twice. -/
theorem failure_bypasses_dedup_witness :
    (cycle (initialState 0) netFailInput).2.sent =
      ["Сбой в работе программы: "
         ++ (PyError.exc ("Ошибка при запросе к API: " ++ ENDPOINT ++ ".")).pyStr] ∧
    (cycle (cycle (initialState 0) netFailInput).1 netFailInput).2.sent =
      ["Сбой в работе программы: "
         ++ (PyError.exc ("Ошибка при запросе к API: " ++ ENDPOINT ++ ".")).pyStr] := by
  have h := failure_bypasses_dedup (initialState 0) netFailInput
    (.exc ("Ошибка при запросе к API: " ++ ENDPOINT ++ ".")) rfl
  exact ⟨h.1, h.2.2⟩

/-- C10: a changed status message whose delivery fails is still recorded
as notified: the cycle passes it to `send_message`, the notifier logs the
delivery failure and swallows it, `last_status` is updated to the message
regardless, and a later cycle deriving the same message sends nothing —
the message is never retried while the status stays unchanged. -/
theorem failed_delivery_recorded (s : PollState) (inp inp' : CycleInput)
    (m e : String)
    (hd : derived inp = some m) (hdel : inp.delivery = .error e)
    (hch : s.last_status ≠ some m) (hd' : derived inp' = some m) :
    (cycle s inp).2.sent = [m] ∧
    (⟨.error, "Сбой при отправке сообщения в Telegram: " ++ e⟩ : LogEvent)
      ∈ (cycle s inp).2.logs ∧
    (cycle s inp).1.last_status = some m ∧
    (cycle (cycle s inp).1 inp').2.sent = [] := by
  have h1 := cycle_of_derived s inp m hd
  have hafter := last_status_after_derived s inp m hd
  rw [if_neg hch] at h1
  refine ⟨by rw [h1], ?_, hafter, ?_⟩
  · rw [h1]
    dsimp only
    rw [hdel]
    simp [send_message]
  · rw [cycle_of_derived _ inp' m hd', if_pos hafter]

/-- Witness for C10: scenario-1 message with a raising Telegram client,
then the same response again — one send, never retried. -/
theorem failed_delivery_recorded_witness :
    (cycle (initialState 0) (failedDeliveryInput scenario1Response)).2.sent
      = [scenario1Text] ∧
    (⟨.error, "Сбой при отправке сообщения в Telegram: " ++ "Timed out"⟩
        : LogEvent)
      ∈ (cycle (initialState 0) (failedDeliveryInput scenario1Response)).2.logs ∧
    (cycle (cycle (initialState 0) (failedDeliveryInput scenario1Response)).1
        (okInput scenario1Response)).2.sent = [] := by
  have h := failed_delivery_recorded (initialState 0)
    (failedDeliveryInput scenario1Response) (okInput scenario1Response)
    scenario1Text "Timed out" rfl rfl (by decide) rfl
  exact ⟨h.1, h.2.1, h.2.2.2⟩

end HomeworkBot
